import Mathlib

/-!
Verification of the pyvaem valve-driver protocol core.

This file gives a shallow embedding, in Lean, of the register codec, the
valve-mask conversions, the status-word decoder, the error-code table and
the session logic of the pyvaem repository (src/pyvaem/vaemHelper.py and
src/pyvaem/VaemDriver.py), and proves or refutes the specified properties
of those functions.  Machine integers are modelled as Nat with explicit
bounds; Python exceptions are modelled with Option / Except; Python list
indexing (including its negative-index wrap-around) is modelled by pyGet.
-/

namespace PyVaem

/-- Python exception kinds raised by the embedded code paths. -/
inductive PyError where
  | valueError
  | indexError
  | keyError
  deriving DecidableEq, Repr

/-- Embedding of the frozen dataclass VaemRegisters of vaemHelper.py:
one parameter-access frame.  Each field is a Nat; representability bounds
(8/16/64 bit) appear as hypotheses of the theorems. -/
structure VaemRegisters where
  access : Nat
  dataType : Nat
  paramIndex : Nat
  paramSubIndex : Nat
  errorRet : Nat
  transferValue : Nat
  deriving DecidableEq, Repr

/-- Embedding of the word-building comprehension of _construct_registers:
consecutive byte pairs are combined into big-endian 16-bit words,
word = (tmp[i] << 8) + tmp[i+1] for i = 0, 2, 4, ... -/
def pairWords : List Nat → List Nat
  | a :: b :: rest => ((a <<< 8) + b) :: pairWords rest
  | _ => []

/-- Embedding of _construct_registers of vaemHelper.py.  The byte list tmp
models struct.pack(">BBHBBQ", ...): one byte each for access and dataType,
two big-endian bytes for paramIndex, one byte each for paramSubIndex and
errorRet, eight big-endian bytes for transferValue.  (struct.pack demands
each field to be in range for its width; the theorems carry those bounds.) -/
def _construct_registers (vaem_reg : VaemRegisters) : List Nat :=
  let tmp : List Nat :=
    [vaem_reg.access,
     vaem_reg.dataType,
     vaem_reg.paramIndex / 2 ^ 8 % 2 ^ 8,
     vaem_reg.paramIndex % 2 ^ 8,
     vaem_reg.paramSubIndex,
     vaem_reg.errorRet,
     vaem_reg.transferValue / 2 ^ 56 % 2 ^ 8,
     vaem_reg.transferValue / 2 ^ 48 % 2 ^ 8,
     vaem_reg.transferValue / 2 ^ 40 % 2 ^ 8,
     vaem_reg.transferValue / 2 ^ 32 % 2 ^ 8,
     vaem_reg.transferValue / 2 ^ 24 % 2 ^ 8,
     vaem_reg.transferValue / 2 ^ 16 % 2 ^ 8,
     vaem_reg.transferValue / 2 ^ 8 % 2 ^ 8,
     vaem_reg.transferValue % 2 ^ 8]
  pairWords tmp

/-- Python list indexing l[i]: a negative index wraps around once by the
list length; an index that is still out of range raises IndexError (none). -/
def pyGet (l : List Nat) (i : Int) : Option Nat :=
  let j : Int := if i < 0 then (l.length : Int) + i else i
  if j < 0 then none else l[j.toNat]?

/-- Embedding of _deconstruct_registers of vaemHelper.py.  The transfer
value is assembled from the last four words of the input taken in reverse
order (the final word is least significant); Python indexing semantics are
preserved, so registers[len - 1 - 3] wraps around when len = 3. -/
def _deconstruct_registers (registers : List Nat) : Option VaemRegisters := do
  let w0 ← pyGet registers 0
  let w1 ← pyGet registers 1
  let w2 ← pyGet registers 2
  let t0 ← pyGet registers ((registers.length : Int) - 1 - 0)
  let t1 ← pyGet registers ((registers.length : Int) - 1 - 1)
  let t2 ← pyGet registers ((registers.length : Int) - 1 - 2)
  let t3 ← pyGet registers ((registers.length : Int) - 1 - 3)
  pure
    { access := (w0 &&& 0xFF00) >>> 8
      dataType := w0 &&& 0x00FF
      paramIndex := w1
      paramSubIndex := (w2 &&& 0xFF00) >>> 8
      errorRet := w2 &&& 0x00FF
      transferValue := t0 + (t1 <<< 16) + (t2 <<< 32) + (t3 <<< 48) }

/-- Embedding of VaemRegisters.from_list: an empty (or None) register list
raises ValueError; otherwise _deconstruct_registers runs, and any failing
list access in it raises IndexError. -/
def from_list (registers : List Nat) : Except PyError VaemRegisters :=
  if registers.length = 0 then
    .error .valueError
  else
    match _deconstruct_registers registers with
    | some r => .ok r
    | none => .error .indexError

/-- Embedding of VaemRegisters.to_list. -/
def to_list (r : VaemRegisters) : List Nat :=
  _construct_registers r

/-- Shifting right after masking with a shifted mask extracts the masked
field: (x &&& (m <<< k)) >>> k = (x >>> k) &&& m. -/
lemma and_shiftLeft_shiftRight (x m k : Nat) :
    (x &&& (m <<< k)) >>> k = (x >>> k) &&& m := by
  apply Nat.eq_of_testBit_eq
  intro i
  simp only [Nat.testBit_shiftRight, Nat.testBit_and, Nat.testBit_shiftLeft]
  have h : k ≤ k + i := Nat.le_add_right k i
  simp [h, Nat.add_sub_cancel_left]

/-- Extracting an n-bit field at offset k with mask-and-shift equals the
arithmetic div-mod form. -/
lemma extract_field (x k n : Nat) :
    (x &&& ((2 ^ n - 1) <<< k)) >>> k = x / 2 ^ k % 2 ^ n := by
  rw [and_shiftLeft_shiftRight, Nat.and_pow_two_sub_one_eq_mod,
    Nat.shiftRight_eq_div_pow]

/-- High byte of a big-endian 16-bit word built from two bytes. -/
lemma hi_of_word {a b : Nat} (ha : a < 2 ^ 8) (hb : b < 2 ^ 8) :
    (((a <<< 8) + b) &&& 0xFF00) >>> 8 = a := by
  have h : (0xFF00 : Nat) = (2 ^ 8 - 1) <<< 8 := by decide
  rw [h, extract_field, Nat.shiftLeft_eq]
  omega

/-- Low byte of a big-endian 16-bit word built from two bytes. -/
lemma lo_of_word (a : Nat) {b : Nat} (hb : b < 2 ^ 8) :
    ((a <<< 8) + b) &&& 0x00FF = b := by
  have h : (0x00FF : Nat) = 2 ^ 8 - 1 := by decide
  rw [h, Nat.and_pow_two_sub_one_eq_mod, Nat.shiftLeft_eq]
  omega

/-- Evaluating _deconstruct_registers on any seven-word list. -/
lemma deconstruct_seven (w0 w1 w2 w3 w4 w5 w6 : Nat) :
    _deconstruct_registers [w0, w1, w2, w3, w4, w5, w6] =
      some
        { access := (w0 &&& 0xFF00) >>> 8
          dataType := w0 &&& 0x00FF
          paramIndex := w1
          paramSubIndex := (w2 &&& 0xFF00) >>> 8
          errorRet := w2 &&& 0x00FF
          transferValue := w6 + (w5 <<< 16) + (w4 <<< 32) + (w3 <<< 48) } := rfl

/-- C1: frame codec round-trip.  For every representable parameter-access
frame r (access, dataType, paramSubIndex, errorRet each an 8-bit value,
paramIndex a 16-bit value, transferValue a 64-bit value), decoding the
word list produced by encoding r yields r back:
VaemRegisters.from_list (r.to_list()) == r. -/
theorem frame_codec_roundtrip (r : VaemRegisters)
    (h1 : r.access < 2 ^ 8) (h2 : r.dataType < 2 ^ 8)
    (h3 : r.paramIndex < 2 ^ 16) (h4 : r.paramSubIndex < 2 ^ 8)
    (h5 : r.errorRet < 2 ^ 8) (h6 : r.transferValue < 2 ^ 64) :
    from_list (to_list r) = .ok r := by
  obtain ⟨a, d, pI, s, e, tv⟩ := r
  simp only at h1 h2 h3 h4 h5 h6
  have hto :
      to_list ⟨a, d, pI, s, e, tv⟩ =
        [(a <<< 8) + d,
         ((pI / 2 ^ 8 % 2 ^ 8) <<< 8) + pI % 2 ^ 8,
         (s <<< 8) + e,
         ((tv / 2 ^ 56 % 2 ^ 8) <<< 8) + tv / 2 ^ 48 % 2 ^ 8,
         ((tv / 2 ^ 40 % 2 ^ 8) <<< 8) + tv / 2 ^ 32 % 2 ^ 8,
         ((tv / 2 ^ 24 % 2 ^ 8) <<< 8) + tv / 2 ^ 16 % 2 ^ 8,
         ((tv / 2 ^ 8 % 2 ^ 8) <<< 8) + tv % 2 ^ 8] := rfl
  rw [hto, from_list]
  rw [if_neg (by simp)]
  rw [deconstruct_seven]
  refine congrArg Except.ok ?_
  have hb1 : pI / 2 ^ 8 % 2 ^ 8 < 2 ^ 8 := Nat.mod_lt _ (by norm_num)
  have hb2 : pI % 2 ^ 8 < 2 ^ 8 := Nat.mod_lt _ (by norm_num)
  have hb3 : tv / 2 ^ 56 % 2 ^ 8 < 2 ^ 8 := Nat.mod_lt _ (by norm_num)
  simp only [VaemRegisters.mk.injEq]
  refine ⟨?_, ?_, ?_, ?_, ?_, ?_⟩
  · exact hi_of_word h1 h2
  · exact lo_of_word a h2
  · show ((pI / 2 ^ 8 % 2 ^ 8) <<< 8) + pI % 2 ^ 8 = pI
    rw [Nat.shiftLeft_eq]
    omega
  · exact hi_of_word h4 h5
  · exact lo_of_word s h5
  · show (((tv / 2 ^ 8 % 2 ^ 8) <<< 8) + tv % 2 ^ 8)
        + ((((tv / 2 ^ 24 % 2 ^ 8) <<< 8) + tv / 2 ^ 16 % 2 ^ 8) <<< 16)
        + ((((tv / 2 ^ 40 % 2 ^ 8) <<< 8) + tv / 2 ^ 32 % 2 ^ 8) <<< 32)
        + ((((tv / 2 ^ 56 % 2 ^ 8) <<< 8) + tv / 2 ^ 48 % 2 ^ 8) <<< 48) = tv
    simp only [Nat.shiftLeft_eq]
    omega

/-- Witness for C1 at a concrete representable frame. -/
theorem frame_codec_roundtrip_witness :
    from_list
        (to_list
          { access := 1, dataType := 4, paramIndex := 0x13, paramSubIndex := 2,
            errorRet := 0, transferValue := 0xDEADBEEFCAFE }) =
      .ok
        { access := 1, dataType := 4, paramIndex := 0x13, paramSubIndex := 2,
          errorRet := 0, transferValue := 0xDEADBEEFCAFE } :=
  frame_codec_roundtrip _ (by decide) (by decide) (by decide) (by decide)
    (by decide) (by norm_num)

/-- C2 counterexample: the claimed known vector is wrong about the code.
Encoding the frame does not yield the 6-word sequence
[0x0001, 0x0002, 0x0003, 0x0004, 0x0005, 0x0006]: struct.pack(">BBHBBQ")
produces 14 bytes, so _construct_registers always returns 7 words. -/
theorem known_vector_counterexample :
    to_list
        { access := 0, dataType := 1, paramIndex := 2, paramSubIndex := 0,
          errorRet := 3, transferValue := 0x0003000400050006 } ≠
      [0x0001, 0x0002, 0x0003, 0x0004, 0x0005, 0x0006] := by
  decide

/-- C2 amended: encoding the frame {access 0, dataType 1, paramIndex 2,
paramSubIndex 0, errorRet 3, transferValue 0x0003000400050006} yields the
seven-word sequence [1, 2, 3, 3, 4, 5, 6] (word 2 is paramSubIndex<<8 |
errorRet = 3, then four transfer-value words), matching the repository's
own test; and decoding [1, 2, 3, 4, 5, 6] yields access 0, dataType 1,
paramIndex 2, paramSubIndex 0, errorRet 3 and transferValue
0x0003000400050006 (last four input words assembled in reverse order,
final word least significant). -/
theorem known_vector_amended :
    to_list
        { access := 0, dataType := 1, paramIndex := 2, paramSubIndex := 0,
          errorRet := 3, transferValue := 0x0003000400050006 } =
      [1, 2, 3, 3, 4, 5, 6] ∧
    from_list [1, 2, 3, 4, 5, 6] =
      .ok { access := 0, dataType := 1, paramIndex := 2, paramSubIndex := 0,
            errorRet := 3, transferValue := 0x0003000400050006 } :=
  ⟨by decide, rfl⟩

/-- C4 counterexample: decoding a five-word input does not fail; from_list
only rejects the empty list, so [1, 2, 3, 4, 5] decodes to a frame. -/
theorem short_input_decodes_counterexample :
    from_list [1, 2, 3, 4, 5] =
      .ok { access := 0, dataType := 1, paramIndex := 2, paramSubIndex := 0,
            errorRet := 3, transferValue := 0x0002000300040005 } := rfl

/-- Evaluating pyGet at a non-negative index is plain list indexing. -/
lemma pyGet_eq_of_nonneg (l : List Nat) (i : Int) (h0 : 0 ≤ i) :
    pyGet l i = l[i.toNat]? := by
  have h' : ¬ i < 0 := by omega
  simp [pyGet, h']

/-- A pyGet at an index within bounds always yields a value. -/
lemma pyGet_isSome {l : List Nat} {i : Int} (h0 : 0 ≤ i)
    (h : i < (l.length : Int)) : ∃ x, pyGet l i = some x := by
  rw [pyGet_eq_of_nonneg l i h0]
  have hlt : i.toNat < l.length := by omega
  exact ⟨l[i.toNat], List.getElem?_eq_getElem hlt⟩

/-- C4 amended: frame decoding raises ValueError (the MalformedFrame
condition) exactly for the empty input; a one- or two-word input instead
raises IndexError from the word accesses; and every input of three or more
words produces a frame (for exactly three words, Python's negative-index
wrap-around makes the fourth transfer-value access reuse the last word). -/
theorem from_list_short_input_amended (l : List Nat) :
    (l.length = 0 → from_list l = .error .valueError) ∧
    ((l.length = 1 ∨ l.length = 2) → from_list l = .error .indexError) ∧
    (3 ≤ l.length → ∃ r, from_list l = .ok r) := by
  match l with
  | [] => exact ⟨fun _ => rfl, by simp, by simp⟩
  | [a] => exact ⟨by simp, fun _ => rfl, by simp⟩
  | [a, b] => exact ⟨by simp, fun _ => rfl, by simp⟩
  | [a, b, c] => exact ⟨by simp, by simp, fun _ => ⟨_, rfl⟩⟩
  | a :: b :: c :: d :: rs =>
    refine ⟨by simp, by simp, fun _ => ?_⟩
    set l' : List Nat := a :: b :: c :: d :: rs with hl'
    have hlen : l'.length = rs.length + 4 := by simp [hl']
    obtain ⟨w0, hw0⟩ := pyGet_isSome (l := l') (i := 0) (by omega) (by omega)
    obtain ⟨w1, hw1⟩ := pyGet_isSome (l := l') (i := 1) (by omega) (by omega)
    obtain ⟨w2, hw2⟩ := pyGet_isSome (l := l') (i := 2) (by omega) (by omega)
    obtain ⟨t0, ht0⟩ :=
      pyGet_isSome (l := l') (i := (l'.length : Int) - 1 - 0) (by omega)
        (by omega)
    obtain ⟨t1, ht1⟩ :=
      pyGet_isSome (l := l') (i := (l'.length : Int) - 1 - 1) (by omega)
        (by omega)
    obtain ⟨t2, ht2⟩ :=
      pyGet_isSome (l := l') (i := (l'.length : Int) - 1 - 2) (by omega)
        (by omega)
    obtain ⟨t3, ht3⟩ :=
      pyGet_isSome (l := l') (i := (l'.length : Int) - 1 - 3) (by omega)
        (by omega)
    have hde : _deconstruct_registers l' = some
        { access := (w0 &&& 0xFF00) >>> 8
          dataType := w0 &&& 0x00FF
          paramIndex := w1
          paramSubIndex := (w2 &&& 0xFF00) >>> 8
          errorRet := w2 &&& 0x00FF
          transferValue := t0 + (t1 <<< 16) + (t2 <<< 32) + (t3 <<< 48) } := by
      simp only [_deconstruct_registers, hw0, hw1, hw2, ht0, ht1, ht2, ht3,
        Option.some_bind, pure]
      rfl
    refine
      ⟨{ access := (w0 &&& 0xFF00) >>> 8
         dataType := w0 &&& 0x00FF
         paramIndex := w1
         paramSubIndex := (w2 &&& 0xFF00) >>> 8
         errorRet := w2 &&& 0x00FF
         transferValue := t0 + (t1 <<< 16) + (t2 <<< 32) + (t3 <<< 48) }, ?_⟩
    rw [from_list, if_neg (by omega), hde]

/-- Witness for C4 amended: the three regimes at concrete inputs. -/
theorem from_list_short_input_amended_witness :
    from_list [] = .error .valueError ∧
    from_list [7] = .error .indexError ∧
    ∃ r, from_list [1, 2, 3] = .ok r :=
  ⟨(from_list_short_input_amended []).1 rfl,
   (from_list_short_input_amended [7]).2.1 (Or.inl rfl),
   (from_list_short_input_amended [1, 2, 3]).2.2 (by norm_num)⟩

/-- Embedding of the states-to-mask conversion in select_valves of
VaemDriver.py: the eight-entry states list is reversed, the entries are
joined into a binary digit string, and the string is parsed base 2
(int(binary_string, 2) accumulates digit by digit from the left). -/
def maskFromOrderedStates (states : List Nat) : Nat :=
  (states.reverse).foldl (fun acc s => 2 * acc + s) 0

/-- Embedding of the mask-to-states conversion in read_valves_state of
VaemDriver.py: format(mask, "08b") renders eight binary digits most
significant first (for masks below 256), each digit becomes an integer,
and the resulting list is reversed. -/
def statesFromMask (mask : Nat) : List Nat :=
  ((List.range 8).map fun i => mask >>> (7 - i) &&& 1).reverse

set_option maxRecDepth 4000 in
/-- C3: valve-mask algebra.  Converting the ordered state list
[1,1,1,0,0,0,0,0] (index 0 = valve 1) to a wire mask yields 0x07;
converting mask 0x07 back yields [1,1,1,0,0,0,0,0]; and for every 8-bit
mask m, converting m to the ordered state list and back yields m. -/
theorem valve_mask_algebra (m : Nat) (h : m < 256) :
    maskFromOrderedStates [1, 1, 1, 0, 0, 0, 0, 0] = 0x07 ∧
    statesFromMask 0x07 = [1, 1, 1, 0, 0, 0, 0, 0] ∧
    maskFromOrderedStates (statesFromMask m) = m := by
  have key : ∀ m' : Nat, m' < 256 →
      maskFromOrderedStates (statesFromMask m') = m' := by decide
  exact ⟨by decide, by decide, key m h⟩

/-- Witness for C3 at the concrete mask 0xA5. -/
theorem valve_mask_algebra_witness :
    maskFromOrderedStates (statesFromMask 0xA5) = 0xA5 :=
  (valve_mask_algebra 0xA5 (by decide)).2.2

/-- Decoded status word, with one field per key of the dictionary built by
parse_statusword in vaemHelper.py. -/
structure VaemStatus where
  Status : Nat
  Error : Nat
  Readiness : Nat
  OperatingMode : Nat
  Valve1 : Nat
  Valve2 : Nat
  Valve3 : Nat
  Valve4 : Nat
  Valve5 : Nat
  Valve6 : Nat
  Valve7 : Nat
  Valve8 : Nat
  deriving DecidableEq, Repr

/-- Embedding of parse_statusword of vaemHelper.py. -/
def parse_statusword (statusWord : Nat) : VaemStatus :=
  { Status := statusWord &&& 0x01
    Error := (statusWord &&& 0x08) >>> 3
    Readiness := (statusWord &&& 0x10) >>> 4
    OperatingMode := (statusWord &&& 0xC0) >>> 6
    Valve1 := (statusWord &&& 0x100) >>> 8
    Valve2 := (statusWord &&& 0x200) >>> 9
    Valve3 := (statusWord &&& 0x400) >>> 10
    Valve4 := (statusWord &&& 0x800) >>> 11
    Valve5 := (statusWord &&& 0x1000) >>> 12
    Valve6 := (statusWord &&& 0x2000) >>> 13
    Valve7 := (statusWord &&& 0x4000) >>> 14
    Valve8 := (statusWord &&& 0x8000) >>> 15 }

/-- C6 counterexample: the input 0x0119 has bit 3 set (0x0119 = bits
0, 3, 4 and 8), so under the documented layout the decoder reports
error = 1 there, not error = 0 as the claim states. -/
theorem status_word_counterexample :
    ¬ (parse_statusword 0x0119).Error = 0 := by decide

/-- Extracting a single bit k with mask-and-shift equals div-mod. -/
lemma extract_bit (x k : Nat) (hm : (2 : Nat) ^ k = (2 ^ 1 - 1) <<< k) :
    (x &&& 2 ^ k) >>> k = x / 2 ^ k % 2 := by
  conv_lhs => rw [hm]
  rw [extract_field]
  norm_num

/-- C6 amended: status-word decoding of 0x0119 yields status = 1,
error = 1 (bit 3 of 0x0119 is set), readiness = 1, operating mode = 0,
valve1 = 1 and valve2..valve8 all 0; and for every input the decoder
follows the documented bit layout (status bit 0, error bit 3, readiness
bit 4, operating mode bits 6-7, valve1..valve8 bits 8-15 with least
significant = valve 1), totally, with no failure mode. -/
theorem status_word_amended (w : Nat) :
    parse_statusword 0x0119 =
      { Status := 1, Error := 1, Readiness := 1, OperatingMode := 0,
        Valve1 := 1, Valve2 := 0, Valve3 := 0, Valve4 := 0, Valve5 := 0,
        Valve6 := 0, Valve7 := 0, Valve8 := 0 } ∧
    (parse_statusword w).Status = w % 2 ∧
    (parse_statusword w).Error = w / 2 ^ 3 % 2 ∧
    (parse_statusword w).Readiness = w / 2 ^ 4 % 2 ∧
    (parse_statusword w).OperatingMode = w / 2 ^ 6 % 4 ∧
    (parse_statusword w).Valve1 = w / 2 ^ 8 % 2 ∧
    (parse_statusword w).Valve2 = w / 2 ^ 9 % 2 ∧
    (parse_statusword w).Valve3 = w / 2 ^ 10 % 2 ∧
    (parse_statusword w).Valve4 = w / 2 ^ 11 % 2 ∧
    (parse_statusword w).Valve5 = w / 2 ^ 12 % 2 ∧
    (parse_statusword w).Valve6 = w / 2 ^ 13 % 2 ∧
    (parse_statusword w).Valve7 = w / 2 ^ 14 % 2 ∧
    (parse_statusword w).Valve8 = w / 2 ^ 15 % 2 := by
  refine ⟨by decide, ?_, ?_, ?_, ?_, ?_, ?_, ?_, ?_, ?_, ?_, ?_, ?_⟩
  · exact Nat.and_one_is_mod w
  · exact extract_bit w 3 (by decide)
  · exact extract_bit w 4 (by decide)
  · show (w &&& 0xC0) >>> 6 = w / 2 ^ 6 % 4
    have h : (0xC0 : Nat) = (2 ^ 2 - 1) <<< 6 := by decide
    rw [h, extract_field]
    norm_num
  · exact extract_bit w 8 (by decide)
  · exact extract_bit w 9 (by decide)
  · exact extract_bit w 10 (by decide)
  · exact extract_bit w 11 (by decide)
  · exact extract_bit w 12 (by decide)
  · exact extract_bit w 13 (by decide)
  · exact extract_bit w 14 (by decide)
  · exact extract_bit w 15 (by decide)

/-- Witness for C6 amended at the concrete input 0x0119. -/
theorem status_word_amended_witness :
    (parse_statusword 0x0119).Error = 0x0119 / 2 ^ 3 % 2 :=
  (status_word_amended 0x0119).2.1

/-- Embedding of the error_codes dictionary of VaemDriver.py.  Python
dict access error_codes[c] yields the mapped message, or raises KeyError
when c is not a key (modelled by List.lookup returning none). -/
def error_codes : List (Nat × String) :=
  [(0, "Ready for operation, no error"),
   (34, "Invalid index"),
   (35, "Invalid subindex"),
   (36, "Read request cannot be processed"),
   (37, "Write request cannot be processed"),
   (41, "Specified value falls below the minimum value"),
   (42, "The specified value exceeds the maximum value"),
   (43, "Incorrect transfer value"),
   (44, "Data type incorrect"),
   (93, "General syntax error"),
   (94, "Syntax error index (variable x)"),
   (95, "Syntax error subindex (variable y)"),
   (96, "Syntax error value"),
   (97, "Command execution aborted")]

/-- C8 counterexample: the error-code table is not total over 8-bit codes
and an unlisted code is not mapped to any category: error_codes[200]
raises KeyError in handle_error_response (a crash), rather than yielding
an UnrecognizedDeviceError category. -/
theorem error_code_table_counterexample :
    error_codes.lookup 200 = none := by decide

set_option maxRecDepth 8000 in
/-- C8 amended: translating the listed code 42 yields the message "The
specified value exceeds the maximum value"; the table is partial, defined
exactly on the fourteen listed codes among all 8-bit codes, and an
unlisted code such as 200 has no translation (dict access raises
KeyError in handle_error_response). -/
theorem error_code_table_amended (c : Nat) (h : c < 256) :
    error_codes.lookup 42 =
      some "The specified value exceeds the maximum value" ∧
    error_codes.lookup 200 = none ∧
    ((error_codes.lookup c).isSome ↔
      c ∈ [0, 34, 35, 36, 37, 41, 42, 43, 44, 93, 94, 95, 96, 97]) := by
  have key : ∀ c' : Nat, c' < 256 →
      ((error_codes.lookup c').isSome ↔
        c' ∈ [0, 34, 35, 36, 37, 41, 42, 43, 44, 93, 94, 95, 96, 97]) := by
    decide
  exact ⟨by decide, by decide, key c h⟩

/-- Witness for C8 amended at the concrete code 42. -/
theorem error_code_table_amended_witness :
    (error_codes.lookup 42).isSome :=
  (error_code_table_amended 42 (by decide)).2.2.mpr (by decide)

/-- Embedding of the VaemRanges dictionary of vaemHelper.py: each setting
name maps to its half-open valid range (min, max + 1). -/
def VaemRanges : List (String × (Nat × Nat)) :=
  [("NominalVoltage", (8000, 24000 + 1)),
   ("InrushCurrent", (20, 1000 + 1)),
   ("HoldingCurrent", (20, 400 + 1)),
   ("ResponseTime", (1, 2 ^ 32 - 1 + 1)),
   ("PickUpTime", (1, 500 + 1)),
   ("TimeDelay", (0, 2 ^ 32 - 1 + 1)),
   ("HitNHold", (0, 1000 + 1)),
   ("SelectValve", (0, 255 + 1))]

/-- Python hasattr(VaemRanges, name) as evaluated by configure_valves in
VaemDriver.py: VaemRanges there is the dictionary above, and dictionary
keys are not attributes of the dict object, so the check is false for
every parameter name (the names are not attributes of dict). -/
def vaemRangesHasAttr (_name : String) : Bool := false

/-- Outcome of one settings write attempted by configure_valves. -/
inductive ConfigureOutcome where
  | raisedNotASetting
  | raisedAttributeFailure
  | raisedRangeError
  | sent (frame : VaemRegisters)
  deriving DecidableEq, Repr

/-- Embedding of the per-parameter loop body of configure_valves in
VaemDriver.py.  The body first checks hasattr(VaemRanges, param.name) and
raises ValueError "... is not a setting" when it is false; only otherwise
would it reach the range check value in range(*getattr(VaemRanges,
param.name).value) - a branch that on this module's dict-valued
VaemRanges could not even evaluate (tuples have no attribute named value)
and is modelled as raisedAttributeFailure. -/
def configure_valves_param (name : String) (_value : Nat)
    (_valve_id : Nat) : ConfigureOutcome :=
  if ¬ vaemRangesHasAttr name then .raisedNotASetting
  else .raisedAttributeFailure

/-- C5 on the code as written: every settings write through
configure_valves, in range or not, raises the "is not a setting"
ValueError before any frame is built or any transport interaction,
because hasattr is queried on a dictionary. -/
theorem configure_valves_always_not_a_setting (name : String)
    (value valve_id : Nat) :
    configure_valves_param name value valve_id = .raisedNotASetting := rfl

/-- Witness for C5 at the docstring's own example, an in-range write. -/
theorem configure_valves_always_not_a_setting_witness :
    configure_valves_param "ResponseTime" 100 1 = .raisedNotASetting :=
  configure_valves_always_not_a_setting "ResponseTime" 100 1

/-- Embedding of _read_write_registers of VaemDriver.py: the transport
exchange either returns the response words or raises; a raise is caught,
logged, and the method returns an empty list. -/
def _read_write_registers (exchange : Except String (List Nat)) :
    List Nat :=
  match exchange with
  | .ok regs => regs
  | .error _ => []

/-- Embedding of _transfer_vaem_registers of VaemDriver.py: perform the
exchange, then decode the response with VaemRegisters.from_list. -/
def _transfer_vaem_registers (exchange : Except String (List Nat)) :
    Except PyError VaemRegisters :=
  from_list (_read_write_registers exchange)

/-- C7 counterexample: when the transport exchange raises, the session's
transaction operation does not return an empty-result TransportError
signal; _read_write_registers returns [], and decoding that empty list in
_transfer_vaem_registers raises ValueError to the caller. -/
theorem transport_failure_counterexample :
    _transfer_vaem_registers (.error "connection reset") =
      .error .valueError := rfl

/-- C7 amended: for every transport failure, the register exchange
returns the empty list after logging, and the session's transaction
operation then raises ValueError from decoding that empty response - the
failure surfaces to the caller as an exception, not as an empty result. -/
theorem transport_failure_amended (msg : String) :
    _read_write_registers (.error msg) = [] ∧
    _transfer_vaem_registers (.error msg) = .error .valueError :=
  ⟨rfl, rfl⟩

/-- Witness for C7 amended at a concrete transport failure. -/
theorem transport_failure_amended_witness :
    _transfer_vaem_registers (.error "timeout") = .error .valueError :=
  (transport_failure_amended "timeout").2

/-- Embedding of the numeric entries of the vaemValveIndex dictionary of
vaemHelper.py (its additional "AllValves" entry has a string key and is
not reachable from the integer valve-id paths). -/
def vaemValveIndex : List (Nat × Nat) :=
  [(1, 0x01), (2, 0x02), (3, 0x04), (4, 0x08),
   (5, 0x10), (6, 0x20), (7, 0x40), (8, 0x80)]

/-- Embedding of create_select_valve_registers of vaemHelper.py: a frame
against the SelectValve parameter (0x13), subindex 0, 8-bit data type. -/
def create_select_valve_registers (operation : Nat) (valve_code : Nat) :
    VaemRegisters :=
  { access := operation
    dataType := 1
    paramIndex := 0x13
    paramSubIndex := 0
    errorRet := 0
    transferValue := valve_code }

/-- Modelled from the spec: the helper get_transfer_value is imported by
VaemDriver.py from pyvaem.vaemHelper but is missing from the repository
sources.  For the SelectValve parameter, the spec (section 4.4,
readSelection and writeSelection) prescribes a frame against the
SelectValve parameter with subindex 0, 8-bit data type, the requested
access and the given transfer value - which coincides with the source's
own create_select_valve_registers. -/
def get_transfer_value_select (value : Nat) (operation : Nat) :
    VaemRegisters :=
  create_select_valve_registers operation value

/-- Device collaborator for the selection scenario: it faithfully stores
the last written selection mask.  A read request is answered with the
stored mask as transfer value; a write request stores its transfer value
and echoes the frame.  The result is (new device mask, response frame). -/
def deviceStep (mask : Nat) (req : VaemRegisters) :
    Nat × VaemRegisters :=
  if req.access = 0 then (mask, { req with transferValue := mask })
  else (req.transferValue, req)

/-- Python expression a & ~b on (non-negative, arbitrary-precision)
ints: bitwise and with the two's-complement negation clears in a every
bit that is set in b, which on Nat is subtracting the common bit
pattern a &&& b (a bitwise subset of a) from a. -/
def pyAndNot (a b : Nat) : Nat := a - (a &&& b)

/-- Embedding of select_valve of VaemDriver.py run against the
mask-storing device: validate the valve id (1..8), read the currently
selected valves, then write the or of the read-back transfer value with
the valve's bit.  Returns the device mask after the exchange and the
final response frame. -/
def select_valve (mask : Nat) (valve_id : Nat) :
    Except PyError (Nat × VaemRegisters) :=
  if 1 ≤ valve_id ∧ valve_id < 9 then
    match vaemValveIndex.lookup valve_id with
    | some bit =>
      let step1 := deviceStep mask (get_transfer_value_select bit 0)
      let writeReq :=
        get_transfer_value_select (bit ||| step1.2.transferValue) 1
      .ok (deviceStep step1.1 writeReq)
    | none => .error .keyError
  else .error .valueError

/-- Embedding of deselect_valve of VaemDriver.py run against the
mask-storing device: validate the valve id (1..8), read the currently
selected valves, then write the read-back transfer value with the
valve's bit cleared (resp & ~bit). -/
def deselect_valve (mask : Nat) (valve_id : Nat) :
    Except PyError (Nat × VaemRegisters) :=
  if 1 ≤ valve_id ∧ valve_id < 9 then
    match vaemValveIndex.lookup valve_id with
    | some bit =>
      let step1 := deviceStep mask (get_transfer_value_select bit 0)
      let writeReq :=
        get_transfer_value_select (pyAndNot step1.2.transferValue bit) 1
      .ok (deviceStep step1.1 writeReq)
    | none => .error .keyError
  else .error .valueError

/-- C9: read-modify-write selection scenario.  Starting from an empty
selection mask on a device that stores the last written mask, selecting
valve 3 and then valve 7 leaves the device mask at
bitFor(3) | bitFor(7) = 0x44, and then deselecting valve 3 leaves it at
0x40. -/
theorem select_deselect_scenario :
    (do
      let s1 ← select_valve 0 3
      let s2 ← select_valve s1.1 7
      let s3 ← deselect_valve s2.1 3
      pure (s2.1, s3.1) : Except PyError (Nat × Nat)) = .ok (0x44, 0x40) :=
  rfl

/-- Embedding of the control-word reset frame written by
reset_control_word of VaemDriver.py (write access, 16-bit data type,
ControlWord parameter, transfer value 0). -/
def reset_control_word_frame : VaemRegisters :=
  { access := 1
    dataType := 2
    paramIndex := 0x01
    paramSubIndex := 0
    errorRet := 0
    transferValue := 0 }

/-- Fuel-indexed embedding of open_valve of VaemDriver.py.  The body
first calls self.open_valve() and only afterwards would call
reset_control_word, so each activation spends the recursion budget on the
inner call before any write; a result of none models a call that
exhausts its finite budget without returning.  The second component is
the ordered list of frames the call wrote to the device. -/
def open_valve : Nat → Option Unit × List VaemRegisters
  | 0 => (none, [])
  | n + 1 =>
    match open_valve n with
    | (some _, writes) => (some (), writes ++ [reset_control_word_frame])
    | (none, writes) => (none, writes)

/-- C10: open_valve never terminates and never issues any control-word
write.  For every finite recursion budget the call fails to return (the
unconditional self.open_valve() consumes the whole budget first) and the
write trace stays empty, so the control-word reset step is unreachable. -/
theorem open_valve_diverges (fuel : Nat) :
    open_valve fuel = (none, []) := by
  induction fuel with
  | zero => rfl
  | succ n ih => simp [open_valve, ih]

/-- Witness for C10 at a concrete recursion budget. -/
theorem open_valve_diverges_witness : open_valve 5 = (none, []) :=
  open_valve_diverges 5

end PyVaem
